import Mathlib

/-
Verification of the PingService RPC dispatch and liveness-check core
(src/PingService.cc) against its specification.

The handlers getMetrics, ping, proxyPing and dispatch are embedded from the
source.  External collaborators that are not part of the sources (the metrics
registry of RawMetrics.h, downCast of Common.h, Cycles.h, PingClient, and the
opcode constants of Rpc.h) are modelled from the spec, as noted on each
definition.
-/

namespace RAMCloud

/-- Modelled from the spec: the process-wide metrics registry (RawMetrics.h,
not under the sources) is an external collaborator whose serialize()
capability produces an opaque byte blob; we model the registry by the byte
blob its serialization yields. -/
structure MetricsRegistry where
  snapshotBytes : List Nat
deriving DecidableEq

/-- Modelled from the spec: serialize() appends the registry snapshot bytes;
the registry is read but not mutated. -/
def MetricsRegistry.serialize (m : MetricsRegistry) : List Nat :=
  m.snapshotBytes

/-- Modelled from the spec: downCast of Common.h (not under the sources)
narrows a size to uint32_t, failing (assertion) when the value does not fit
in 32 bits. -/
def downCast32 (n : Nat) : Option Nat :=
  if n < 2 ^ 32 then some n else none

/-- GetMetricsRpc::Response header: the declared byte length of the payload. -/
structure GetMetricsResponse where
  messageLength : Nat
deriving DecidableEq

/-- PingRpc::Request header: a 64-bit opaque nonce chosen by the caller. -/
structure PingRequest where
  nonce : Nat
deriving DecidableEq

/-- PingRpc::Response header: the echoed nonce. -/
structure PingResponse where
  nonce : Nat
deriving DecidableEq

/-- ProxyPingRpc::Request header plus its variable-length trailing service
locator string (per the spec data model the locator travels in the trailing
portion of the request, length given explicitly). -/
structure ProxyPingRequest where
  serviceLocatorLength : Nat
  timeoutNanoseconds : Nat
  serviceLocator : String
deriving DecidableEq

/-- ProxyPingRpc::Response header: a signed (int64) elapsed time in
nanoseconds, or the sentinel -1. -/
structure ProxyPingResponse where
  replyNanoseconds : Int
deriving DecidableEq

/-- Modelled from the spec: the TimeoutException raised by the transport when
the outbound call does not complete within the caller-specified budget. -/
inductive TimeoutException where
  | mk
deriving DecidableEq

/-- uint64 wrap-around subtraction, as computed by the C++ expression
Cycles::rdtsc() - start on uint64_t operands. -/
def sub64 (a b : Nat) : Nat :=
  (a % 2 ^ 64 + 2 ^ 64 - b % 2 ^ 64) % 2 ^ 64

/-- Reinterpretation of a uint64 quantity as int64, as performed by the C++
assignment of a uint64_t value to the int64_t field replyNanoseconds. -/
def toInt64 (n : Nat) : Int :=
  if n % 2 ^ 64 < 2 ^ 63 then ((n % 2 ^ 64 : Nat) : Int)
  else ((n % 2 ^ 64 : Nat) : Int) - 2 ^ 64

namespace Cycles

/-- Modelled from the spec: Cycles::toNanoseconds (Cycles.h is not under the
sources) converts an elapsed cycle count to nanoseconds given the processor
frequency in cycles per second. -/
def toNanoseconds (cycles cyclesPerSec : Nat) : Nat :=
  cycles * 1000000000 / cyclesPerSec

end Cycles

/-- Modelled from the spec: the environment of one proxyPing invocation — the
two monotonic clock readings Cycles::rdtsc() returns (at the start timestamp
and after the nested call returns), the processor frequency, and the
behaviour of the nested PingClient::ping call (PingClient is not under the
sources; per the spec its outcome is either Completed with a reply value or
TimedOut, the latter raised as a TimeoutException).  pingReply takes the
service locator, the nonce sent, and the timeout in nanoseconds. -/
structure ProxyPingEnv where
  startCycles : Nat
  endCycles : Nat
  cyclesPerSec : Nat
  pingReply : String → Nat → Nat → Except TimeoutException Nat

namespace PingService

/-- PingService::getMetrics: serialize the registry, set messageLength via
downCast to uint32_t, and memcpy messageLength bytes of the snapshot into the
reply payload.  Returns the (unchanged) registry, the response header and the
appended payload bytes; none models the downCast narrowing failure. -/
def getMetrics (metrics : MetricsRegistry) :
    Option (MetricsRegistry × GetMetricsResponse × List Nat) :=
  match downCast32 metrics.serialize.length with
  | some len => some (metrics, { messageLength := len }, metrics.serialize.take len)
  | none => none

/-- PingService::ping: copy reqHdr.nonce into respHdr.nonce.  The TEST_LOG of
the nonce is diagnostic only and not modelled.  Total: the handler cannot
fail. -/
def ping (metrics : MetricsRegistry) (reqHdr : PingRequest) :
    MetricsRegistry × PingResponse :=
  (metrics, { nonce := reqHdr.nonce })

/-- PingService::proxyPing: issue the nested ping with the sentinel nonce
99999 and the caller-specified timeout; on a normal return equal to the
sentinel store the measured elapsed nanoseconds, on a different value store
-1, and on a TimeoutException store -1 (the catch block).  Total over the
modelled outcomes: no exception escapes. -/
def proxyPing (reqHdr : ProxyPingRequest) (env : ProxyPingEnv) :
    ProxyPingResponse :=
  match env.pingReply reqHdr.serviceLocator 99999 reqHdr.timeoutNanoseconds with
  | Except.ok result =>
      if result = 99999 then
        { replyNanoseconds :=
            toInt64 (Cycles.toNanoseconds (sub64 env.endCycles env.startCycles)
              env.cyclesPerSec) }
      else
        { replyNanoseconds := -1 }
  | Except.error _ =>
      { replyNanoseconds := -1 }

/-- Modelled from the spec: the opcode tags of Rpc.h (not under the sources),
an enumeration of the three registered operations plus all other codes. -/
inductive RpcOpcode where
  | getMetricsOpcode
  | pingOpcode
  | proxyPingOpcode
  | unregistered (code : Nat)
deriving DecidableEq

/-- The three handlers PingService::dispatch can invoke via callHandler. -/
inductive Handler where
  | getMetricsHandler
  | pingHandler
  | proxyPingHandler
deriving DecidableEq

/-- The UnimplementedRequestError thrown by dispatch on an unknown opcode. -/
inductive ServiceError where
  | unimplementedRequest
deriving DecidableEq

/-- PingService::dispatch: switch on the opcode and invoke the matching
handler through callHandler; the default case throws
UnimplementedRequestError, so on the error branch no handler is invoked. -/
def dispatch (opcode : RpcOpcode) : Except ServiceError Handler :=
  match opcode with
  | RpcOpcode.getMetricsOpcode => Except.ok Handler.getMetricsHandler
  | RpcOpcode.pingOpcode => Except.ok Handler.pingHandler
  | RpcOpcode.proxyPingOpcode => Except.ok Handler.proxyPingHandler
  | RpcOpcode.unregistered _ => Except.error ServiceError.unimplementedRequest

end PingService

/-- Helper: toInt64 is the identity on values below 2^63. -/
theorem toInt64_of_lt (n : Nat) (h : n < 2 ^ 63) : toInt64 n = (n : Int) := by
  have h64 : n < 2 ^ 64 := lt_trans h (by norm_num)
  unfold toInt64
  rw [Nat.mod_eq_of_lt h64, if_pos h]

/-- Helper: the value proxyPing stores is either the -1 sentinel or the
measured elapsed duration, by case analysis on the nested call. -/
theorem proxyPing_cases (reqHdr : ProxyPingRequest) (env : ProxyPingEnv) :
    PingService.proxyPing reqHdr env = { replyNanoseconds := -1 } ∨
    PingService.proxyPing reqHdr env =
      { replyNanoseconds :=
          toInt64 (Cycles.toNanoseconds (sub64 env.endCycles env.startCycles)
            env.cyclesPerSec) } := by
  unfold PingService.proxyPing
  cases env.pingReply reqHdr.serviceLocator 99999 reqHdr.timeoutNanoseconds with
  | ok result =>
      by_cases hr : result = 99999
      · right
        simp [hr]
      · left
        simp [hr]
  | error e =>
      left
      rfl

/-- Shared concrete fixture: a proxy-ping request. -/
def reqW : ProxyPingRequest :=
  { serviceLocatorLength := 7, timeoutNanoseconds := 1000000,
    serviceLocator := "remote" }

/-- Shared concrete fixture: environment whose nested ping echoes the
sentinel. -/
def envReplySentinel : ProxyPingEnv :=
  { startCycles := 10, endCycles := 30, cyclesPerSec := 1000000000,
    pingReply := fun _ _ _ => Except.ok 99999 }

/-- Shared concrete fixture: environment whose nested ping returns a value
different from the sentinel. -/
def envReplyOther : ProxyPingEnv :=
  { startCycles := 10, endCycles := 30, cyclesPerSec := 1000000000,
    pingReply := fun _ _ _ => Except.ok 7 }

/-- Shared concrete fixture: environment whose nested ping times out. -/
def envTimedOut : ProxyPingEnv :=
  { startCycles := 10, endCycles := 30, cyclesPerSec := 1000000000,
    pingReply := fun _ _ _ => Except.error TimeoutException.mk }

/-- C1: when the nested outbound ping returns normally, proxyPing stores the
measured elapsed duration between the start timestamp and now if the reply
nonce equals the sentinel 99999 that was sent, and stores -1 if the reply
nonce differs from the sentinel. -/
theorem proxyPing_normal_reply (reqHdr : ProxyPingRequest) (env : ProxyPingEnv)
    (result : Nat)
    (h : env.pingReply reqHdr.serviceLocator 99999 reqHdr.timeoutNanoseconds =
      Except.ok result) :
    PingService.proxyPing reqHdr env =
      if result = 99999 then
        { replyNanoseconds :=
            toInt64 (Cycles.toNanoseconds (sub64 env.endCycles env.startCycles)
              env.cyclesPerSec) }
      else
        { replyNanoseconds := -1 } := by
  unfold PingService.proxyPing
  rw [h]

/-- Witness for C1 at a concrete request and environment. -/
theorem proxyPing_normal_reply_witness :
    envReplySentinel.pingReply reqW.serviceLocator 99999 reqW.timeoutNanoseconds =
      Except.ok 99999 ∧
    PingService.proxyPing reqW envReplySentinel =
      if (99999 : Nat) = 99999 then
        { replyNanoseconds :=
            toInt64 (Cycles.toNanoseconds
              (sub64 envReplySentinel.endCycles envReplySentinel.startCycles)
              envReplySentinel.cyclesPerSec) }
      else
        { replyNanoseconds := -1 } :=
  ⟨rfl, proxyPing_normal_reply reqW envReplySentinel 99999 rfl⟩

/-- C2: for every outcome of the nested outbound ping — a normal completion
with any reply value or the timeout exception — proxyPing returns normally
(it is a total function over the modelled outcomes, so no exception escapes
to the dispatcher) and the response field is either the -1 sentinel or the
measured duration. -/
theorem proxyPing_always_wellformed (reqHdr : ProxyPingRequest)
    (env : ProxyPingEnv) :
    (PingService.proxyPing reqHdr env).replyNanoseconds = -1 ∨
    (PingService.proxyPing reqHdr env).replyNanoseconds =
      toInt64 (Cycles.toNanoseconds (sub64 env.endCycles env.startCycles)
        env.cyclesPerSec) := by
  rcases proxyPing_cases reqHdr env with h | h
  · left
    rw [h]
  · right
    rw [h]

/-- C6: when the nested outbound ping raises a timeout before any reply
arrives, proxyPing recovers locally and stores the -1 sentinel; since the
function returns normally, the timeout is never propagated to the
dispatcher. -/
theorem proxyPing_timeout_sentinel (reqHdr : ProxyPingRequest)
    (env : ProxyPingEnv) (e : TimeoutException)
    (h : env.pingReply reqHdr.serviceLocator 99999 reqHdr.timeoutNanoseconds =
      Except.error e) :
    PingService.proxyPing reqHdr env = { replyNanoseconds := -1 } := by
  unfold PingService.proxyPing
  rw [h]

/-- Witness for C6 at a concrete request and a timed-out environment. -/
theorem proxyPing_timeout_sentinel_witness :
    envTimedOut.pingReply reqW.serviceLocator 99999 reqW.timeoutNanoseconds =
      Except.error TimeoutException.mk ∧
    PingService.proxyPing reqW envTimedOut = { replyNanoseconds := -1 } :=
  ⟨rfl, proxyPing_timeout_sentinel reqW envTimedOut TimeoutException.mk rfl⟩

/-- C7: whenever the reported replyNanoseconds is not -1, it is non-negative
and bounded by the caller-specified timeout plus measurement overhead,
assuming the environment guarantee that the nested call kept within the
budget (the measured elapsed nanoseconds are at most timeout plus overhead)
and that this budget fits in int64. -/
theorem proxyPing_elapsed_bounded (reqHdr : ProxyPingRequest)
    (env : ProxyPingEnv) (overhead : Nat)
    (hbudget : Cycles.toNanoseconds (sub64 env.endCycles env.startCycles)
      env.cyclesPerSec ≤ reqHdr.timeoutNanoseconds + overhead)
    (hrange : reqHdr.timeoutNanoseconds + overhead < 2 ^ 63)
    (hne : (PingService.proxyPing reqHdr env).replyNanoseconds ≠ -1) :
    0 ≤ (PingService.proxyPing reqHdr env).replyNanoseconds ∧
    (PingService.proxyPing reqHdr env).replyNanoseconds ≤
      (reqHdr.timeoutNanoseconds : Int) + (overhead : Int) := by
  have hlt : Cycles.toNanoseconds (sub64 env.endCycles env.startCycles)
      env.cyclesPerSec < 2 ^ 63 := lt_of_le_of_lt hbudget hrange
  rcases proxyPing_cases reqHdr env with h | h
  · exact absurd (by rw [h]) hne
  · rw [h]
    refine ⟨?_, ?_⟩
    · show 0 ≤ toInt64 (Cycles.toNanoseconds (sub64 env.endCycles env.startCycles)
        env.cyclesPerSec)
      rw [toInt64_of_lt _ hlt]
      exact Int.ofNat_nonneg _
    · show toInt64 (Cycles.toNanoseconds (sub64 env.endCycles env.startCycles)
        env.cyclesPerSec) ≤ (reqHdr.timeoutNanoseconds : Int) + (overhead : Int)
      rw [toInt64_of_lt _ hlt]
      exact_mod_cast hbudget

/-- Witness for C7: the sentinel-echo environment yields a non-(-1) measured
value within the budget. -/
theorem proxyPing_elapsed_bounded_witness :
    Cycles.toNanoseconds
        (sub64 envReplySentinel.endCycles envReplySentinel.startCycles)
        envReplySentinel.cyclesPerSec ≤ reqW.timeoutNanoseconds + 0 ∧
    reqW.timeoutNanoseconds + 0 < 2 ^ 63 ∧
    (PingService.proxyPing reqW envReplySentinel).replyNanoseconds ≠ -1 ∧
    (0 ≤ (PingService.proxyPing reqW envReplySentinel).replyNanoseconds ∧
      (PingService.proxyPing reqW envReplySentinel).replyNanoseconds ≤
        (reqW.timeoutNanoseconds : Int) + ((0 : Nat) : Int)) :=
  ⟨by decide, by decide, by decide,
    proxyPing_elapsed_bounded reqW envReplySentinel 0 (by decide) (by decide)
      (by decide)⟩

/-- C3: for every 64-bit nonce value n, handling a Ping request with nonce n
sets the response nonce to n, and the handler returns normally (it is a
total function). -/
theorem ping_echoes_nonce (metrics : MetricsRegistry) (n : Nat)
    (h : n < 2 ^ 64) :
    (PingService.ping metrics { nonce := n }).2.nonce = n :=
  rfl

/-- Witness for C3 at the spec scenario nonce 12345. -/
theorem ping_echoes_nonce_witness :
    12345 < 2 ^ 64 ∧
    (PingService.ping { snapshotBytes := [] } { nonce := 12345 }).2.nonce =
      12345 :=
  ⟨by norm_num, ping_echoes_nonce { snapshotBytes := [] } 12345 (by norm_num)⟩

/-- C8: the only caller-observable effect of the Ping handler is copying the
request nonce into the response nonce: the metrics registry is returned
unchanged, the request is read-only by construction, the response consists
exactly of the echoed nonce field, and the handler is a total function, so
it cannot fail. -/
theorem ping_frame (metrics : MetricsRegistry) (reqHdr : PingRequest) :
    PingService.ping metrics reqHdr = (metrics, { nonce := reqHdr.nonce }) :=
  rfl

/-- C4: dispatch routes each of the three registered opcodes to exactly the
handler registered for it, and every other opcode yields the unimplemented
operation error with no handler invoked (the error branch carries no
handler). -/
theorem dispatch_routes :
    PingService.dispatch PingService.RpcOpcode.getMetricsOpcode =
      Except.ok PingService.Handler.getMetricsHandler ∧
    PingService.dispatch PingService.RpcOpcode.pingOpcode =
      Except.ok PingService.Handler.pingHandler ∧
    PingService.dispatch PingService.RpcOpcode.proxyPingOpcode =
      Except.ok PingService.Handler.proxyPingHandler ∧
    ∀ code : Nat,
      PingService.dispatch (PingService.RpcOpcode.unregistered code) =
        Except.error PingService.ServiceError.unimplementedRequest :=
  ⟨rfl, rfl, rfl, fun _ => rfl⟩

/-- C5: for every registry whose snapshot fits the uint32 length field, the
GetMetrics handler copies the serialized snapshot into the response payload
and sets messageLength to the exact byte length of that snapshot, so
messageLength equals the payload length and the payload equals the snapshot
bytes. -/
theorem getMetrics_copies_snapshot (metrics : MetricsRegistry)
    (h : metrics.serialize.length < 2 ^ 32) :
    PingService.getMetrics metrics =
      some (metrics, { messageLength := metrics.serialize.length },
        metrics.serialize) := by
  unfold PingService.getMetrics downCast32
  rw [if_pos h]
  simp [List.take_length]

/-- Witness for C5 at a concrete three-byte registry snapshot. -/
theorem getMetrics_copies_snapshot_witness :
    ({ snapshotBytes := [7, 8, 9] } : MetricsRegistry).serialize.length <
      2 ^ 32 ∧
    PingService.getMetrics { snapshotBytes := [7, 8, 9] } =
      some ({ snapshotBytes := [7, 8, 9] },
        { messageLength :=
            ({ snapshotBytes := [7, 8, 9] } : MetricsRegistry).serialize.length },
        ({ snapshotBytes := [7, 8, 9] } : MetricsRegistry).serialize) :=
  ⟨by norm_num [MetricsRegistry.serialize],
    getMetrics_copies_snapshot { snapshotBytes := [7, 8, 9] }
      (by norm_num [MetricsRegistry.serialize])⟩

/-- C9: handling a GetMetrics request does not mutate the metrics registry:
whenever the handler returns, the registry component of the result equals
the registry it was invoked on. -/
theorem getMetrics_preserves_registry (metrics : MetricsRegistry)
    (res : MetricsRegistry × GetMetricsResponse × List Nat)
    (h : PingService.getMetrics metrics = some res) :
    res.1 = metrics := by
  unfold PingService.getMetrics at h
  cases hc : downCast32 metrics.serialize.length with
  | some len =>
      rw [hc] at h
      cases h
      rfl
  | none =>
      rw [hc] at h
      exact Option.noConfusion h

/-- Witness for C9 at a concrete empty registry. -/
theorem getMetrics_preserves_registry_witness :
    PingService.getMetrics { snapshotBytes := [] } =
      some ({ snapshotBytes := [] }, { messageLength := 0 }, []) ∧
    (({ snapshotBytes := [] } : MetricsRegistry),
      ({ messageLength := 0 } : GetMetricsResponse), ([] : List Nat)).1 =
      { snapshotBytes := [] } :=
  ⟨by decide,
    getMetrics_preserves_registry { snapshotBytes := [] }
      ({ snapshotBytes := [] }, { messageLength := 0 }, []) (by decide)⟩

/-- C10: for every registry whose serialized snapshot is at most 2^32 - 1
bytes long, the downCast narrowing of the length to uint32 is exact and its
failure branch is unreachable: getMetrics takes the success branch. -/
theorem getMetrics_downCast_exact (metrics : MetricsRegistry)
    (h : metrics.serialize.length ≤ 2 ^ 32 - 1) :
    downCast32 metrics.serialize.length = some metrics.serialize.length ∧
    (PingService.getMetrics metrics).isSome = true := by
  have h32 : metrics.serialize.length < 2 ^ 32 :=
    lt_of_le_of_lt h (by norm_num)
  constructor
  · unfold downCast32
    rw [if_pos h32]
  · unfold PingService.getMetrics downCast32
    rw [if_pos h32]
    rfl

/-- Witness for C10 at a concrete one-byte registry snapshot. -/
theorem getMetrics_downCast_exact_witness :
    ({ snapshotBytes := [42] } : MetricsRegistry).serialize.length ≤
      2 ^ 32 - 1 ∧
    downCast32 ({ snapshotBytes := [42] } : MetricsRegistry).serialize.length =
      some ({ snapshotBytes := [42] } : MetricsRegistry).serialize.length ∧
    (PingService.getMetrics { snapshotBytes := [42] }).isSome = true :=
  ⟨by norm_num [MetricsRegistry.serialize],
    (getMetrics_downCast_exact { snapshotBytes := [42] }
      (by norm_num [MetricsRegistry.serialize])).1,
    (getMetrics_downCast_exact { snapshotBytes := [42] }
      (by norm_num [MetricsRegistry.serialize])).2⟩

end RAMCloud
